import Mathlib

/-!
Verification development for the turmeric disease detection application.

The backend (Convex functions in `convex/seedDiseases.ts` and the analysis
module) and the client upload validation (`src/App.tsx`) are shallowly
embedded below. External effects (the OpenAI chat completion calls, the
JavaScript `JSON.parse` builtin, authentication) are modelled as oracle
inputs supplied through environment records; everything the repository
itself computes is translated directly from the source.
-/

namespace Turmeric

/-- Severity enum of the schema: low | moderate | high. -/
inductive Severity where
  | low
  | moderate
  | high
deriving DecidableEq, Repr

/-- Status enum of an analysis record: analyzing | completed | failed. -/
inductive Status where
  | analyzing
  | completed
  | failed
deriving DecidableEq, Repr

/-- A source citation (title/url/snippet) as in the schema. -/
structure Source where
  title : String
  url : String
  snippet : String
deriving DecidableEq, Repr

/-- A row of the `diseases` table, fields as in the schema. -/
structure Disease where
  name : String
  scientificName : String
  severity : Severity
  symptoms : List String
  causes : String
  prevention : List String
  treatment : String
  description : String
deriving DecidableEq, Repr

/-- A row of the `analyses` table, fields as in the schema. User ids are
modelled as naturals; the storage id field is omitted as it is never
written by the embedded code. -/
structure Analysis where
  userId : Option Nat
  imageUrl : Option String
  detectedDisease : String
  confidence : Int
  severity : Severity
  symptoms : List String
  treatment : String
  sources : Option (List Source)
  status : Status
deriving DecidableEq, Repr

/-- Database state: the `diseases` table, the `analyses` table as an
association list in insertion order (the key standing for the document id /
creation time), and the next fresh id. -/
structure Db where
  diseases : List Disease
  analyses : List (Nat × Analysis)
  nextId : Nat
deriving DecidableEq, Repr

/-- The five catalog entries inserted by the `seedDiseases` mutation,
verbatim from the source. -/
def seedList : List Disease :=
  [ { name := "Leaf Spot Disease"
    , scientificName := "Taphrina maculans"
    , severity := Severity.moderate
    , symptoms :=
        [ "Brown or black spots on leaves"
        , "Yellowing around spots"
        , "Premature leaf drop"
        , "Reduced plant vigor" ]
    , causes := "Fungal infection caused by excessive moisture and poor air circulation. Common in humid conditions and overcrowded plantings."
    , prevention :=
        [ "Ensure proper spacing between plants"
        , "Improve air circulation"
        , "Avoid overhead watering"
        , "Remove infected plant debris"
        , "Apply preventive fungicide sprays" ]
    , treatment := "Remove affected leaves immediately. Apply copper-based fungicide or neem oil spray. Improve drainage and reduce watering frequency. Ensure good air circulation around plants."
    , description := "A common fungal disease affecting turmeric leaves, characterized by dark spots that can spread rapidly in humid conditions." }
  , { name := "Rhizome Rot"
    , scientificName := "Pythium aphanidermatum"
    , severity := Severity.high
    , symptoms :=
        [ "Soft, mushy rhizomes"
        , "Foul smell from roots"
        , "Yellowing and wilting leaves"
        , "Stunted growth"
        , "Plant collapse" ]
    , causes := "Waterlogged soil conditions leading to fungal infection. Poor drainage and overwatering are primary causes."
    , prevention :=
        [ "Ensure excellent drainage"
        , "Avoid overwatering"
        , "Use raised beds in heavy soils"
        , "Plant in well-draining soil mix"
        , "Rotate crops annually" ]
    , treatment := "Remove affected plants immediately. Improve soil drainage. Apply fungicide drench with metalaxyl or fosetyl-al. Reduce watering and ensure proper soil aeration."
    , description := "A serious fungal disease that attacks the rhizome system, potentially causing complete plant loss if not treated promptly." }
  , { name := "Leaf Blight"
    , scientificName := "Colletotrichum capsici"
    , severity := Severity.moderate
    , symptoms :=
        [ "Large brown patches on leaves"
        , "Leaf margins turning brown"
        , "Defoliation in severe cases"
        , "Reduced rhizome yield" ]
    , causes := "Fungal pathogen that thrives in warm, humid conditions. Spread through water splash and contaminated tools."
    , prevention :=
        [ "Use disease-free planting material"
        , "Maintain proper plant spacing"
        , "Apply preventive copper sprays"
        , "Remove plant debris"
        , "Avoid working with wet plants" ]
    , treatment := "Apply copper oxychloride or mancozeb fungicide. Remove infected leaves and destroy them. Improve air circulation and reduce leaf wetness duration."
    , description := "A foliar disease that can significantly reduce plant health and rhizome production if left untreated." }
  , { name := "Bacterial Wilt"
    , scientificName := "Ralstonia solanacearum"
    , severity := Severity.high
    , symptoms :=
        [ "Sudden wilting of leaves"
        , "Yellowing from bottom up"
        , "Brown vascular discoloration"
        , "Plant death within days"
        , "No recovery after watering" ]
    , causes := "Soil-borne bacterial pathogen that enters through root wounds. Spreads rapidly in warm, moist conditions."
    , prevention :=
        [ "Use certified disease-free rhizomes"
        , "Avoid soil from infected areas"
        , "Practice crop rotation"
        , "Maintain soil pH 6.0-7.0"
        , "Ensure good drainage" ]
    , treatment := "No effective cure once infected. Remove and destroy affected plants immediately. Treat soil with copper sulfate. Plant resistant varieties in future seasons."
    , description := "A devastating bacterial disease that can cause rapid plant death and soil contamination for future crops." }
  , { name := "Healthy Plant"
    , scientificName := "Curcuma longa"
    , severity := Severity.low
    , symptoms :=
        [ "Vibrant green leaves"
        , "Strong upright growth"
        , "No discoloration or spots"
        , "Healthy root system" ]
    , causes := "Optimal growing conditions with proper nutrition, water management, and disease prevention practices."
    , prevention :=
        [ "Maintain consistent care routine"
        , "Monitor for early disease signs"
        , "Ensure proper nutrition"
        , "Regular health inspections"
        , "Preventive treatments as needed" ]
    , treatment := "Continue current care practices. Monitor regularly for any changes. Maintain optimal growing conditions with balanced fertilization and proper watering."
    , description := "A healthy turmeric plant showing no signs of disease or stress, indicating optimal growing conditions." } ]

/-- The `seedDiseases` mutation: if any catalog row exists it returns the
already-seeded message without inserting; otherwise it inserts the five
fixed entries in order and reports success. -/
def seedDiseases (db : Db) : Db × String :=
  if db.diseases.isEmpty then
    ({ db with diseases := db.diseases ++ seedList }, "Diseases seeded successfully")
  else
    (db, "Diseases already seeded")

/-- Translation of the JavaScript `String.prototype.startsWith`. -/
def strStartsWith (s pre : String) : Bool :=
  pre.data.isPrefixOf s.data

/-- Translation of the JavaScript `String.prototype.toLowerCase` (ASCII
case folding, which covers every string the embedded code folds). -/
def strToLower (s : String) : String :=
  String.mk (s.data.map Char.toLower)

/-- Substring containment, the translation of the JavaScript
`String.prototype.includes`: `containsSub s sub` is true when `sub` occurs
contiguously in `s` (every string contains the empty string). -/
def containsSub (s sub : String) : Bool :=
  (List.range (s.data.length + 1)).any (fun i => sub.data.isPrefixOf (s.data.drop i))

/-- The fuzzy catalog match of `getTreatmentInfo`: case-insensitive
substring containment in either direction between the catalog entry name
and the detected disease name. -/
def diseaseMatches (entry : Disease) (disease : String) : Bool :=
  containsSub (strToLower entry.name) (strToLower disease) ||
    containsSub (strToLower disease) (strToLower entry.name)

/-- Result shape of `getTreatmentInfo`. -/
structure TreatmentResult where
  treatment : String
  sources : List Source
deriving DecidableEq, Repr

/-- Oracle for the external effects reachable from `getTreatmentInfo`:
whether the catalog query throws, and the outcome of the fallback chat
completion call (`Except.error` models a thrown request error; the payload
is the possibly-null `content` of the first choice). -/
structure TreatmentEnv where
  queryFails : Bool
  modelCall : Except String (Option String)

/-- The fixed fallback returned by the catch-all handler of
`getTreatmentInfo`. -/
def treatmentFallback : TreatmentResult :=
  { treatment := "Unable to fetch treatment information. Please consult with a local agricultural expert or extension office for proper diagnosis and treatment recommendations."
  , sources := [] }

/-- Modelled from the spec: the `diseases.list` query (its file is not in
the sources) returns every row of the Disease catalog. -/
def diseasesList (db : Db) : List Disease :=
  db.diseases

/-- The `getTreatmentInfo` internal action over a catalog listing. It
first looks for a fuzzy catalog match and returns that entry's treatment
with no sources; otherwise it makes the fallback model call, substituting
a consult message for a null or empty completion; any thrown error
(catalog query or model call) is caught and mapped to
`treatmentFallback`. The second component counts the chat completion
calls made. The `symptoms` argument only feeds the outbound prompt. -/
def getTreatmentInfo (catalog : List Disease) (env : TreatmentEnv)
    (disease : String) (_symptoms : List String) : TreatmentResult × Nat :=
  if env.queryFails then
    (treatmentFallback, 0)
  else
    match catalog.find? (fun entry => diseaseMatches entry disease) with
    | some d => ({ treatment := d.treatment, sources := [] }, 0)
    | none =>
      match env.modelCall with
      | Except.error _ => (treatmentFallback, 1)
      | Except.ok content =>
        let t :=
          match content with
          | some s =>
            if s = "" then
              "Consult with a local agricultural extension office for specific treatment recommendations."
            else s
          | none => "Consult with a local agricultural extension office for specific treatment recommendations."
        ({ treatment := t, sources := [] }, 1)

/-- The structured payload the orchestrator expects from the
classification response. -/
structure ParsedAnalysis where
  detectedDisease : String
  confidence : Int
  severity : Severity
  symptoms : List String
  summary : String
deriving DecidableEq, Repr

/-- The fixed payload substituted when the classification response cannot
be parsed. -/
def analysisErrorFallback : ParsedAnalysis :=
  { detectedDisease := "Analysis Error"
  , confidence := 0
  , severity := Severity.moderate
  , symptoms := ["Unable to parse analysis results"]
  , summary := "Error processing image analysis" }

/-- The span matched by the greedy pattern over the response text: from
the first opening brace to the last closing brace, provided the latter
comes after the former; otherwise no match. -/
def braceSpan (text : String) : Option String :=
  match text.data.findIdx? (fun c => c = '{') with
  | none => none
  | some i =>
    match text.data.reverse.findIdx? (fun c => c = '}') with
    | none => none
    | some jr =>
      let j := text.data.length - 1 - jr
      if i ≤ j then
        some (String.mk ((text.data.drop i).take (j - i + 1)))
      else none

/-- The string handed to `JSON.parse`: the extracted brace span when the
pattern matches, the whole response text otherwise. -/
def extractJsonTarget (text : String) : String :=
  match braceSpan text with
  | some s => s
  | none => text

/-- Parsing step of the orchestrator: run the host JSON parser (an oracle
covering `JSON.parse` plus the expected field shape) on the extraction
target, falling back to the fixed error payload when it throws. -/
def parseAnalysisText (parse : String → Option ParsedAnalysis) (text : String) : ParsedAnalysis :=
  match parse (extractJsonTarget text) with
  | some r => r
  | none => analysisErrorFallback

/-- The `createAnalysis` internal mutation: insert a fresh record with
blank result fields and the given status, returning its id. -/
def createAnalysis (db : Db) (userId : Option Nat) (status : Status) : Db × Nat :=
  let id := db.nextId
  ({ db with
      analyses := db.analyses ++
        [ (id,
          { userId := userId
          , imageUrl := none
          , detectedDisease := ""
          , confidence := 0
          , severity := Severity.moderate
          , symptoms := []
          , treatment := ""
          , sources := none
          , status := status }) ]
      , nextId := id + 1 }, id)

/-- Argument record of the `updateAnalysis` internal mutation. -/
structure UpdateArgs where
  detectedDisease : String
  confidence : Int
  severity : Severity
  symptoms : List String
  treatment : String
  sources : List Source
  status : Status
deriving DecidableEq, Repr

/-- The patch applied by `updateAnalysis` to a single row. -/
def patchAnalysis (u : UpdateArgs) (a : Analysis) : Analysis :=
  { a with
      detectedDisease := u.detectedDisease
    , confidence := u.confidence
    , severity := u.severity
    , symptoms := u.symptoms
    , treatment := u.treatment
    , sources := some u.sources
    , status := u.status }

/-- The `updateAnalysis` internal mutation: patch the row with the given
id with the result fields. -/
def updateAnalysis (db : Db) (analysisId : Nat) (u : UpdateArgs) : Db :=
  { db with
      analyses := db.analyses.map
        (fun p => if p.1 = analysisId then (p.1, patchAnalysis u p.2) else p) }

/-- Database mutation events emitted by the orchestration path, recording
every status write to the `analyses` table. -/
inductive DbEvent where
  | created (id : Nat) (status : Status)
  | patched (id : Nat) (status : Status)
deriving DecidableEq, Repr

/-- Oracle for the external effects of `analyzeImage`: the authenticated
user, the classification chat completion (thrown error or possibly-null
content), the host JSON parser, and the effects of the nested treatment
action. -/
structure AnalyzeEnv where
  userId : Option Nat
  modelCall : Except String (Option String)
  parse : String → Option ParsedAnalysis
  treatmentEnv : TreatmentEnv

/-- The `updateAnalysis` arguments written by the catch branch of
`analyzeImage`. -/
def failedUpdate : UpdateArgs :=
  { detectedDisease := "Analysis Failed"
  , confidence := 0
  , severity := Severity.moderate
  , symptoms := ["Unable to analyze image"]
  , treatment := "Please try again with a clearer image of the turmeric leaf."
  , sources := []
  , status := Status.failed }

/-- The `analyzeImage` action. It creates a pending record with status
analyzing; runs the classification call; throws on a request error or a
null/empty completion; otherwise parses the response (substituting the
fixed error payload on parse failure), fetches treatment info, and patches
the record to completed. Any error thrown after the record was created is
caught, the record is patched to failed with the fixed retry message, and
the error is rethrown. Returns the final database, the list of mutation
events in order, and the rethrown error or the record id. -/
def analyzeImage (env : AnalyzeEnv) (db : Db) : Db × List DbEvent × Except String Nat :=
  let created := createAnalysis db env.userId Status.analyzing
  let db1 := created.1
  let analysisId := created.2
  let fail := fun (e : String) =>
    (updateAnalysis db1 analysisId failedUpdate,
      [DbEvent.created analysisId Status.analyzing,
        DbEvent.patched analysisId Status.failed],
      (Except.error e : Except String Nat))
  match env.modelCall with
  | Except.error e => fail e
  | Except.ok content =>
    match content with
    | none => fail "No analysis received from AI"
    | some analysisText =>
      if analysisText = "" then fail "No analysis received from AI"
      else
        let analysisResult := parseAnalysisText env.parse analysisText
        let treatment :=
          (getTreatmentInfo (diseasesList db1) env.treatmentEnv
            analysisResult.detectedDisease analysisResult.symptoms).1
        let db2 := updateAnalysis db1 analysisId
          { detectedDisease := analysisResult.detectedDisease
          , confidence := analysisResult.confidence
          , severity := analysisResult.severity
          , symptoms := analysisResult.symptoms
          , treatment := treatment.treatment
          , sources := treatment.sources
          , status := Status.completed }
        (db2,
          [DbEvent.created analysisId Status.analyzing,
            DbEvent.patched analysisId Status.completed],
          Except.ok analysisId)

/-- The `getAnalysis` query: fetch one record by id. -/
def getAnalysis (db : Db) (analysisId : Nat) : Option Analysis :=
  (db.analyses.find? (fun p => p.1 = analysisId)).map (fun p => p.2)

/-- The `getUserAnalyses` query: empty for an unauthenticated caller;
otherwise the rows of the `by_user` index for that user, newest first
(descending creation order), limited to ten. -/
def getUserAnalyses (db : Db) (userId : Option Nat) : List (Nat × Analysis) :=
  match userId with
  | none => []
  | some u =>
    ((db.analyses.filter (fun p => decide (p.2.userId = some u))).reverse).take 10

/-- Client view states of `App.tsx`. -/
inductive AppStatus where
  | IDLE
  | ANALYZING
  | SEARCHING
  | COMPLETED
  | ERROR
deriving DecidableEq, Repr

/-- Observable steps of `handleImageUpload`, in program order: React state
writes, the `FileReader.readAsDataURL` call (which performs the file read
and base64 conversion), and the backend `analyzeImage` action call. -/
inductive UploadEvent where
  | setError (msg : Option String)
  | setStatus (s : AppStatus)
  | fileRead
  | netAnalyze
deriving DecidableEq, Repr

/-- An uploaded file as seen by the validation code: its MIME type string
and byte size. -/
structure UploadFile where
  mimeType : String
  size : Nat
deriving DecidableEq, Repr

/-- The `handleImageUpload` handler of `App.tsx` as its event trace. A
non-image MIME type or an over-limit size sets the error message and the
ERROR state and returns; otherwise the handler clears the error, enters
ANALYZING, starts the file read, and (in the load callback) enters
SEARCHING and issues the backend analysis call. The mock-result timers
write no further events of these kinds before the call. -/
def handleImageUpload (f : UploadFile) : List UploadEvent :=
  if ¬ strStartsWith f.mimeType "image/" then
    [UploadEvent.setError (some "Please select a valid image file"),
      UploadEvent.setStatus AppStatus.ERROR]
  else if f.size > 10 * 1024 * 1024 then
    [UploadEvent.setError (some "Image size must be less than 10MB"),
      UploadEvent.setStatus AppStatus.ERROR]
  else
    [UploadEvent.setError none,
      UploadEvent.setStatus AppStatus.ANALYZING,
      UploadEvent.fileRead,
      UploadEvent.setStatus AppStatus.SEARCHING,
      UploadEvent.netAnalyze]

/-- A one-entry catalog used to instantiate theorems at concrete inputs. -/
def sampleDisease : Disease :=
  { name := "x"
  , scientificName := "y"
  , severity := Severity.low
  , symptoms := []
  , causes := ""
  , prevention := []
  , treatment := "sample treatment"
  , description := "" }

/-- The empty database. -/
def emptyDb : Db :=
  { diseases := [], analyses := [], nextId := 0 }

/-- A pending analysis row owned by the given user, used to instantiate
theorems at concrete inputs. -/
def sampleAnalysis (uid : Nat) : Analysis :=
  { userId := some uid
  , imageUrl := none
  , detectedDisease := ""
  , confidence := 0
  , severity := Severity.moderate
  , symptoms := []
  , treatment := ""
  , sources := none
  , status := Status.analyzing }

/-- A small database with three analysis rows owned by two users. -/
def sampleDb : Db :=
  { diseases := []
  , analyses := [(0, sampleAnalysis 1), (1, sampleAnalysis 2), (2, sampleAnalysis 1)]
  , nextId := 3 }

theorem map_patch_of_ne (l : List (Nat × Analysis)) (id : Nat) (u : UpdateArgs)
    (h : ∀ p ∈ l, p.1 ≠ id) :
    l.map (fun p => if p.1 = id then (p.1, patchAnalysis u p.2) else p) = l := by
  induction l with
  | nil => rfl
  | cons a t ih =>
    simp only [List.map_cons, List.cons.injEq]
    refine ⟨?_, ih (fun p hp => h p (List.mem_cons_of_mem a hp))⟩
    rw [if_neg (h a (List.mem_cons_self a t))]

/-- C1: In the orchestration path, the analysis record is created with
status analyzing and receives exactly one further status write, to
completed or to failed: the event trace of every run of `analyzeImage` is
precisely a creation at analyzing followed by a single patch to one
terminal status. -/
theorem analysis_status_lifecycle (env : AnalyzeEnv) (db : Db) :
    ∃ t : Status,
      (analyzeImage env db).2.1 =
        [DbEvent.created db.nextId Status.analyzing,
          DbEvent.patched db.nextId t] ∧
      (t = Status.completed ∨ t = Status.failed) := by
  cases hm : env.modelCall with
  | error e =>
    exact ⟨Status.failed, by simp [analyzeImage, createAnalysis, hm], Or.inr rfl⟩
  | ok content =>
    cases content with
    | none =>
      exact ⟨Status.failed, by simp [analyzeImage, createAnalysis, hm], Or.inr rfl⟩
    | some text =>
      by_cases h : text = ""
      · exact ⟨Status.failed, by simp [analyzeImage, createAnalysis, hm, h], Or.inr rfl⟩
      · exact ⟨Status.completed, by simp [analyzeImage, createAnalysis, hm, h], Or.inl rfl⟩

/-- C5: Seeding is idempotent. On a database that already has catalog
rows, `seedDiseases` changes nothing and reports that the diseases are
already seeded; on an empty catalog it inserts exactly the five fixed
entries; and a second invocation right after any invocation performs no
insert and reports already seeded. -/
theorem seedDiseases_idempotent (db : Db) :
    (db.diseases ≠ [] → seedDiseases db = (db, "Diseases already seeded")) ∧
    (db.diseases = [] →
      (seedDiseases db).1.diseases = seedList ∧
      (seedDiseases db).2 = "Diseases seeded successfully") ∧
    seedDiseases (seedDiseases db).1 =
      ((seedDiseases db).1, "Diseases already seeded") := by
  refine ⟨?_, ?_, ?_⟩
  · intro h
    simp [seedDiseases, List.isEmpty_iff, h]
  · intro h
    simp [seedDiseases, List.isEmpty_iff, h]
  · by_cases h : db.diseases = []
    · simp [seedDiseases, List.isEmpty_iff, h, seedList]
    · simp [seedDiseases, List.isEmpty_iff, h]

/-- Witness for C5 at the empty database: the first run inserts the five
entries and reports success, and the run right after it reports already
seeded without change. -/
theorem seedDiseases_idempotent_witness :
    (seedDiseases emptyDb).1.diseases = seedList ∧
    (seedDiseases emptyDb).2 = "Diseases seeded successfully" ∧
    seedDiseases (seedDiseases emptyDb).1 =
      ((seedDiseases emptyDb).1, "Diseases already seeded") :=
  ⟨((seedDiseases_idempotent emptyDb).2.1 rfl).1,
    ((seedDiseases_idempotent emptyDb).2.1 rfl).2,
    (seedDiseases_idempotent emptyDb).2.2⟩

/-- C9: With no authenticated user, `getUserAnalyses` returns the empty
list for every database state. -/
theorem getUserAnalyses_unauthenticated (db : Db) :
    getUserAnalyses db none = [] := rfl

/-- C6: A file whose MIME type does not start with image/ is rejected by
`handleImageUpload` with the fixed message and the ERROR state, and its
trace contains no file read (hence no base64 conversion) and no backend
call. -/
theorem upload_rejects_non_image (f : UploadFile)
    (h : strStartsWith f.mimeType "image/" = false) :
    handleImageUpload f =
      [UploadEvent.setError (some "Please select a valid image file"),
        UploadEvent.setStatus AppStatus.ERROR] ∧
    UploadEvent.fileRead ∉ handleImageUpload f ∧
    UploadEvent.netAnalyze ∉ handleImageUpload f := by
  have hb : ¬ strStartsWith f.mimeType "image/" := by simp [h]
  refine ⟨?_, ?_, ?_⟩ <;> simp [handleImageUpload, hb]

/-- Witness for C6 at a concrete text file. -/
theorem upload_rejects_non_image_witness :
    handleImageUpload ⟨"text/plain", 5⟩ =
      [UploadEvent.setError (some "Please select a valid image file"),
        UploadEvent.setStatus AppStatus.ERROR] ∧
    UploadEvent.fileRead ∉ handleImageUpload ⟨"text/plain", 5⟩ ∧
    UploadEvent.netAnalyze ∉ handleImageUpload ⟨"text/plain", 5⟩ :=
  upload_rejects_non_image ⟨"text/plain", 5⟩ (by decide)

/-- C7 counterexample: an 11 MB file of MIME type text/plain is strictly
larger than 10 MB, yet `handleImageUpload` never emits the size-specific
message for it (the type check rejects it first), refuting the claim as
stated for arbitrary files. -/
theorem upload_size_claim_counterexample :
    (10 * 1024 * 1024 < (⟨"text/plain", 11534336⟩ : UploadFile).size) ∧
    UploadEvent.setError (some "Image size must be less than 10MB") ∉
      handleImageUpload ⟨"text/plain", 11534336⟩ := by
  refine ⟨by norm_num, ?_⟩
  have hb : ¬ strStartsWith "text/plain" "image/" := by decide
  simp [handleImageUpload, hb]

/-- C7 amended: every uploaded file that passes the image MIME-type check
and is strictly larger than 10 MB is rejected with the size-specific
message and the ERROR state, and every file of at most 10 MB passes the
size check (the size message is never emitted for it). -/
theorem upload_size_check (f : UploadFile) :
    (strStartsWith f.mimeType "image/" = true → 10 * 1024 * 1024 < f.size →
      handleImageUpload f =
        [UploadEvent.setError (some "Image size must be less than 10MB"),
          UploadEvent.setStatus AppStatus.ERROR]) ∧
    (f.size ≤ 10 * 1024 * 1024 →
      UploadEvent.setError (some "Image size must be less than 10MB") ∉
        handleImageUpload f) := by
  constructor
  · intro ht hs
    simp [handleImageUpload, ht, hs]
  · intro hs
    by_cases ht : strStartsWith f.mimeType "image/"
    · have : ¬ (10 * 1024 * 1024 < f.size) := by omega
      simp [handleImageUpload, ht, this]
    · simp [handleImageUpload, ht]

/-- Witness for the amended C7 at a concrete oversized image file. -/
theorem upload_size_check_witness :
    handleImageUpload ⟨"image/png", 11534336⟩ =
      [UploadEvent.setError (some "Image size must be less than 10MB"),
        UploadEvent.setStatus AppStatus.ERROR] :=
  (upload_size_check ⟨"image/png", 11534336⟩).1 (by decide) (by norm_num)

/-- C2: When the detected disease name matches some catalog entry
case-insensitively as a substring in either direction, `getTreatmentInfo`
returns the treatment field of the first such entry verbatim with an empty
sources list and makes no chat completion call. -/
theorem getTreatmentInfo_catalog_match (catalog : List Disease) (env : TreatmentEnv)
    (disease : String) (symptoms : List String)
    (hq : env.queryFails = false)
    (hmatch : ∃ d ∈ catalog, diseaseMatches d disease = true) :
    ∃ d ∈ catalog, diseaseMatches d disease = true ∧
      getTreatmentInfo catalog env disease symptoms =
        ({ treatment := d.treatment, sources := [] }, 0) := by
  have hsome : (catalog.find? (fun entry => diseaseMatches entry disease)).isSome := by
    rw [List.find?_isSome]
    exact hmatch
  obtain ⟨d, hd⟩ := Option.isSome_iff_exists.mp hsome
  have hp : diseaseMatches d disease = true :=
    List.find?_some (p := fun entry => diseaseMatches entry disease) hd
  exact ⟨d, List.mem_of_find?_eq_some hd, hp,
    by simp [getTreatmentInfo, hq, hd]⟩

/-- Witness for C2 at a one-entry catalog whose entry name equals the
detected name. -/
theorem getTreatmentInfo_catalog_match_witness :
    ∃ d ∈ [sampleDisease], diseaseMatches d "x" = true ∧
      getTreatmentInfo [sampleDisease] ⟨false, Except.error "down"⟩ "x" [] =
        ({ treatment := d.treatment, sources := [] }, 0) :=
  getTreatmentInfo_catalog_match [sampleDisease] ⟨false, Except.error "down"⟩ "x" []
    rfl ⟨sampleDisease, by simp, by decide⟩

/-- C10: `getTreatmentInfo` is total over errors. Whenever every catalog
entry carries a non-empty treatment text, the returned treatment string is
non-empty and the sources list is empty in every case; and on an internal
failure — the catalog query throwing, or the fallback chat completion
throwing when no catalog entry matched — the result is exactly the fixed
fallback. (In the embedding the function is total, mirroring the catch-all
handler in the source: no input makes it throw.) -/
theorem getTreatmentInfo_total (catalog : List Disease) (env : TreatmentEnv)
    (disease : String) (symptoms : List String)
    (hcat : ∀ d ∈ catalog, d.treatment ≠ "") :
    (getTreatmentInfo catalog env disease symptoms).1.treatment ≠ "" ∧
    (getTreatmentInfo catalog env disease symptoms).1.sources = [] ∧
    (env.queryFails = true →
      (getTreatmentInfo catalog env disease symptoms).1 = treatmentFallback) ∧
    (∀ e, env.queryFails = false →
      catalog.find? (fun entry => diseaseMatches entry disease) = none →
      env.modelCall = Except.error e →
      (getTreatmentInfo catalog env disease symptoms).1 = treatmentFallback) := by
  refine ⟨?_, ?_, ?_, ?_⟩
  · by_cases hq : env.queryFails
    · simp [getTreatmentInfo, hq, treatmentFallback]
    · cases hfind : catalog.find? (fun entry => diseaseMatches entry disease) with
      | some d =>
        have := hcat d (List.mem_of_find?_eq_some hfind)
        simpa [getTreatmentInfo, hq, hfind] using this
      | none =>
        cases hm : env.modelCall with
        | error e => simp [getTreatmentInfo, hq, hfind, hm, treatmentFallback]
        | ok content =>
          cases content with
          | none => simp [getTreatmentInfo, hq, hfind, hm]
          | some s =>
            by_cases hs : s = "" <;>
              simp [getTreatmentInfo, hq, hfind, hm, hs]
  · by_cases hq : env.queryFails
    · simp [getTreatmentInfo, hq, treatmentFallback]
    · cases hfind : catalog.find? (fun entry => diseaseMatches entry disease) with
      | some d => simp [getTreatmentInfo, hq, hfind]
      | none =>
        cases hm : env.modelCall with
        | error e => simp [getTreatmentInfo, hq, hfind, hm, treatmentFallback]
        | ok content => simp [getTreatmentInfo, hq, hfind, hm]
  · intro hq
    simp [getTreatmentInfo, hq]
  · intro e hq hfind hm
    simp [getTreatmentInfo, hq, hfind, hm]

/-- Witness for C10 at the seeded catalog and a failing query oracle. -/
theorem getTreatmentInfo_total_witness :
    (getTreatmentInfo seedList ⟨true, Except.error "down"⟩ "anything" []).1.treatment ≠ "" ∧
    (getTreatmentInfo seedList ⟨true, Except.error "down"⟩ "anything" []).1.sources = [] ∧
    (getTreatmentInfo seedList ⟨true, Except.error "down"⟩ "anything" []).1 = treatmentFallback :=
  have h := getTreatmentInfo_total seedList ⟨true, Except.error "down"⟩ "anything" []
    (by decide)
  ⟨h.1, h.2.1, h.2.2.1 rfl⟩

/-- C8: For an authenticated user, `getUserAnalyses` returns at most ten
rows, each owned by that user, in strictly descending creation order
(newest first), and those rows are exactly the first ten of the reversed
list of the rows owned by that user. The hypothesis states that the table
is listed in creation order, which insertion maintains. -/
theorem getUserAnalyses_spec (db : Db) (u : Nat)
    (hsorted : db.analyses.Pairwise (fun a b => a.1 < b.1)) :
    (getUserAnalyses db (some u)).length ≤ 10 ∧
    (∀ p ∈ getUserAnalyses db (some u), p.2.userId = some u) ∧
    (getUserAnalyses db (some u)).Pairwise (fun a b => b.1 < a.1) ∧
    getUserAnalyses db (some u) =
      ((db.analyses.filter (fun p => decide (p.2.userId = some u))).reverse).take 10 := by
  refine ⟨?_, ?_, ?_, rfl⟩
  · exact List.length_take_le 10 _
  · intro p hp
    have h1 : p ∈ (db.analyses.filter (fun p => decide (p.2.userId = some u))).reverse :=
      List.mem_of_mem_take hp
    rw [List.mem_reverse] at h1
    exact of_decide_eq_true (List.mem_filter.mp h1).2
  · have h1 : (db.analyses.filter
        (fun p => decide (p.2.userId = some u))).Pairwise (fun a b => a.1 < b.1) :=
      hsorted.filter _
    have h2 : ((db.analyses.filter
        (fun p => decide (p.2.userId = some u))).reverse).Pairwise
        (fun a b => b.1 < a.1) :=
      List.pairwise_reverse.mpr h1
    exact List.Pairwise.sublist (List.take_sublist 10 _) h2

/-- Witness for C8 at a three-row database with two owners. -/
theorem getUserAnalyses_spec_witness :
    (getUserAnalyses sampleDb (some 1)).length ≤ 10 ∧
    (∀ p ∈ getUserAnalyses sampleDb (some 1), p.2.userId = some 1) ∧
    (getUserAnalyses sampleDb (some 1)).Pairwise (fun a b => b.1 < a.1) ∧
    getUserAnalyses sampleDb (some 1) =
      ((sampleDb.analyses.filter (fun p => decide (p.2.userId = some 1))).reverse).take 10 :=
  getUserAnalyses_spec sampleDb 1 (by decide)

/-- C3: On an unhandled failure after the pending record is created — the
classification request throwing, or a null or empty completion (which
raises the no-analysis error) — `analyzeImage` patches the record to
status failed with the fixed retry treatment message and rethrows the
original error; no other row is touched. The hypothesis `hwf` states that
existing row ids are below the fresh-id counter, which insertion
maintains. -/
theorem analyzeImage_failure_marks_failed (env : AnalyzeEnv) (db : Db) (e : String)
    (hwf : ∀ p ∈ db.analyses, p.1 < db.nextId)
    (h : env.modelCall = Except.error e ∨
      ((env.modelCall = Except.ok none ∨ env.modelCall = Except.ok (some "")) ∧
        e = "No analysis received from AI")) :
    (analyzeImage env db).2.2 = Except.error e ∧
    (analyzeImage env db).1.analyses =
      db.analyses ++
        [(db.nextId,
          { userId := env.userId
          , imageUrl := none
          , detectedDisease := "Analysis Failed"
          , confidence := 0
          , severity := Severity.moderate
          , symptoms := ["Unable to analyze image"]
          , treatment := "Please try again with a clearer image of the turmeric leaf."
          , sources := some []
          , status := Status.failed })] := by
  have hne : ∀ p ∈ db.analyses, p.1 ≠ db.nextId := fun p hp => Nat.ne_of_lt (hwf p hp)
  have hmap := map_patch_of_ne db.analyses db.nextId failedUpdate hne
  rcases h with hm | ⟨hm | hm, he⟩
  · constructor
    · simp [analyzeImage, createAnalysis, hm]
    · simp only [analyzeImage, createAnalysis, updateAnalysis, hm, List.map_append, hmap]
      simp [patchAnalysis, failedUpdate]
  · subst he
    constructor
    · simp [analyzeImage, createAnalysis, hm]
    · simp only [analyzeImage, createAnalysis, updateAnalysis, hm, List.map_append, hmap]
      simp [patchAnalysis, failedUpdate]
  · subst he
    constructor
    · simp [analyzeImage, createAnalysis, hm]
    · simp only [analyzeImage, createAnalysis, updateAnalysis, hm, List.map_append, hmap]
      simp [patchAnalysis, failedUpdate]

/-- Witness for C3 at the empty database with a throwing classification
call. -/
theorem analyzeImage_failure_marks_failed_witness :
    (analyzeImage
      ⟨some 7, Except.error "boom", fun _ => none, ⟨false, Except.ok none⟩⟩
      emptyDb).2.2 = Except.error "boom" ∧
    (analyzeImage
      ⟨some 7, Except.error "boom", fun _ => none, ⟨false, Except.ok none⟩⟩
      emptyDb).1.analyses =
      emptyDb.analyses ++
        [(emptyDb.nextId,
          { userId := some 7
          , imageUrl := none
          , detectedDisease := "Analysis Failed"
          , confidence := 0
          , severity := Severity.moderate
          , symptoms := ["Unable to analyze image"]
          , treatment := "Please try again with a clearer image of the turmeric leaf."
          , sources := some []
          , status := Status.failed })] :=
  analyzeImage_failure_marks_failed
    ⟨some 7, Except.error "boom", fun _ => none, ⟨false, Except.ok none⟩⟩
    emptyDb "boom"
    (by intro p hp; simp [emptyDb] at hp) (Or.inl rfl)

/-- C4: On a non-empty completion whose extraction target the JSON parser
rejects, `analyzeImage` does not fail: the parsing step substitutes the
fixed Analysis Error payload, and the record is patched to status
completed with that payload and the treatment fetched for it; the action
returns the record id rather than rethrowing. -/
theorem analyzeImage_parse_error_completes (env : AnalyzeEnv) (db : Db) (text : String)
    (hwf : ∀ p ∈ db.analyses, p.1 < db.nextId)
    (hm : env.modelCall = Except.ok (some text))
    (htext : ¬ text = "")
    (hp : env.parse (extractJsonTarget text) = none) :
    parseAnalysisText env.parse text = analysisErrorFallback ∧
    (analyzeImage env db).2.2 = Except.ok db.nextId ∧
    (analyzeImage env db).1.analyses =
      db.analyses ++
        [(db.nextId,
          { userId := env.userId
          , imageUrl := none
          , detectedDisease := "Analysis Error"
          , confidence := 0
          , severity := Severity.moderate
          , symptoms := ["Unable to parse analysis results"]
          , treatment := (getTreatmentInfo db.diseases env.treatmentEnv
              "Analysis Error" ["Unable to parse analysis results"]).1.treatment
          , sources := some (getTreatmentInfo db.diseases env.treatmentEnv
              "Analysis Error" ["Unable to parse analysis results"]).1.sources
          , status := Status.completed })] := by
  have hparse : parseAnalysisText env.parse text = analysisErrorFallback := by
    simp [parseAnalysisText, hp]
  refine ⟨hparse, ?_, ?_⟩
  · simp [analyzeImage, createAnalysis, hm, htext]
  · have hne : ∀ p ∈ db.analyses, p.1 ≠ db.nextId := fun p hp => Nat.ne_of_lt (hwf p hp)
    have hmap := map_patch_of_ne db.analyses db.nextId
      { detectedDisease := "Analysis Error"
      , confidence := 0
      , severity := Severity.moderate
      , symptoms := ["Unable to parse analysis results"]
      , treatment := (getTreatmentInfo db.diseases env.treatmentEnv
          "Analysis Error" ["Unable to parse analysis results"]).1.treatment
      , sources := (getTreatmentInfo db.diseases env.treatmentEnv
          "Analysis Error" ["Unable to parse analysis results"]).1.sources
      , status := Status.completed } hne
    simp only [analyzeImage, createAnalysis, updateAnalysis, diseasesList, hm, htext,
      hparse, analysisErrorFallback, if_false, List.map_append, hmap]
    simp [patchAnalysis]

/-- Witness for C4 at the empty database with an unparseable completion. -/
theorem analyzeImage_parse_error_completes_witness :
    parseAnalysisText (fun _ => none) "no json here" = analysisErrorFallback ∧
    (analyzeImage
      ⟨none, Except.ok (some "no json here"), fun _ => none, ⟨false, Except.error "down"⟩⟩
      emptyDb).2.2 = Except.ok emptyDb.nextId ∧
    (analyzeImage
      ⟨none, Except.ok (some "no json here"), fun _ => none, ⟨false, Except.error "down"⟩⟩
      emptyDb).1.analyses =
      emptyDb.analyses ++
        [(emptyDb.nextId,
          { userId := none
          , imageUrl := none
          , detectedDisease := "Analysis Error"
          , confidence := 0
          , severity := Severity.moderate
          , symptoms := ["Unable to parse analysis results"]
          , treatment := (getTreatmentInfo emptyDb.diseases ⟨false, Except.error "down"⟩
              "Analysis Error" ["Unable to parse analysis results"]).1.treatment
          , sources := some (getTreatmentInfo emptyDb.diseases ⟨false, Except.error "down"⟩
              "Analysis Error" ["Unable to parse analysis results"]).1.sources
          , status := Status.completed })] :=
  analyzeImage_parse_error_completes
    ⟨none, Except.ok (some "no json here"), fun _ => none, ⟨false, Except.error "down"⟩⟩
    emptyDb "no json here"
    (by intro p hp; simp [emptyDb] at hp) rfl (by decide) rfl

end Turmeric
